import Mathlib

/-!
Verification of the ticker-extraction and chart-triggering logic of
`updated_fin_agents.py` (functions `find_ticker_in_response`,
`display_stock_chart`, and the chart-triggering tail of `main`).

Text is modelled as `List Char`.  Word characters follow Python's `\w`
restricted to ASCII (letters, digits, underscore); the Python regex
`\b([A-Z]{1,5})\b` matches exactly those maximal word-character runs that
consist of 1-5 uppercase ASCII letters, since `\b` requires a word/non-word
transition on both sides (a 6-letter uppercase run, or an uppercase run glued
to lowercase letters, digits or underscores, yields no match at all).
-/

/-- A word character in the sense of the regex `\w` (ASCII): letter, digit or
underscore. -/
def isWordChar (c : Char) : Bool :=
  c.isAlpha || c.isDigit || c = '_'

/-- Splits a character list into its maximal runs of word characters, in
left-to-right order; `acc` holds the current run, reversed. -/
def wordRunsAux : List Char → List Char → List (List Char)
  | [], [] => []
  | [], acc => [acc.reverse]
  | c :: cs, acc =>
    if isWordChar c then
      wordRunsAux cs (c :: acc)
    else
      match acc with
      | [] => wordRunsAux cs []
      | _ => acc.reverse :: wordRunsAux cs []

/-- All maximal word-character runs of a text, in order of occurrence. -/
def wordRuns (text : List Char) : List (List Char) :=
  wordRunsAux text []

/-- Whether a maximal word-character run is matched by `\b([A-Z]{1,5})\b`:
1 to 5 characters, all uppercase ASCII letters. -/
def isTickerToken (run : List Char) : Bool :=
  decide (1 ≤ run.length) && decide (run.length ≤ 5) && run.all Char.isUpper

/-- Embedding of `re.findall(r'\b([A-Z]{1,5})\b', text)`: the maximal
word-character runs that are 1-5 uppercase letters, in order of occurrence. -/
def potential_tickers (text : List Char) : List (List Char) :=
  (wordRuns text).filter isTickerToken

/-- The `common_non_tickers` set from `find_ticker_in_response`. -/
def common_non_tickers : List (List Char) :=
  [String.toList "CEO", String.toList "CFO", String.toList "COO",
   String.toList "USA", String.toList "ETF", String.toList "LLC",
   String.toList "INC", String.toList "API", String.toList "NEWS"]

/-- Embedding of Python's substring test `pat in text`. -/
def hasInfix (pat : List Char) : List Char → Bool
  | [] => pat.isPrefixOf []
  | c :: cs => pat.isPrefixOf (c :: cs) || hasInfix pat cs

/-- The context-marker test of `find_ticker_in_response`:
`'---|---|' in text or 'Recommendation Trend' in text or 'Financial Data' in text`. -/
def hasContextMarker (text : List Char) : Bool :=
  hasInfix (String.toList "---|---|") text ||
  hasInfix (String.toList "Recommendation Trend") text ||
  hasInfix (String.toList "Financial Data") text

/-- The `for ticker in potential_tickers` loop of `find_ticker_in_response`:
skip excluded candidates; on the first non-excluded candidate return it when
the text has a context marker; the unconditional fallback return is commented
out in the source, so otherwise the loop continues and finally yields `None`. -/
def findTickerLoop (text : List Char) : List (List Char) → Option (List Char)
  | [] => none
  | t :: ts =>
    if t ∈ common_non_tickers then
      findTickerLoop text ts
    else if hasContextMarker text then
      some t
    else
      findTickerLoop text ts

/-- Embedding of `find_ticker_in_response` from `updated_fin_agents.py`. -/
def find_ticker_in_response (text : List Char) : Option (List Char) :=
  let pts := potential_tickers text
  if pts = [] then none else findTickerLoop text pts

/-- The simpler function described by the refinement claim: if the text
contains one of the three marker substrings, return the first extracted
candidate not in the exclusion set (nothing if no such candidate exists);
otherwise return nothing.  Stated from the claim's words, for comparison
with `find_ticker_in_response`. -/
def extractSimple (text : List Char) : Option (List Char) :=
  if hasContextMarker text then
    (potential_tickers text).find? (fun c => decide (c ∉ common_non_tickers))
  else
    none

/-- User-visible presentation events emitted by the chart path
(`st.write`, `st.plotly_chart`, `st.warning`, `st.error`). -/
inductive UIEvent where
  | writeMsg (msg : String)
  | plotChart (ticker : String)
  | warnMsg (msg : String)
  | errMsg (msg : String)
deriving DecidableEq

/-- Shape of the price data the chart service can return for a ticker:
whether the expected `timestamp` and `close` columns are present, and how
many rows survive `dropna` on those columns. -/
structure PriceData where
  hasTimestampCol : Bool
  hasCloseCol : Bool
  validRowCount : Nat
deriving DecidableEq

/-- The chart service: `yf_tools.get_stock_price` may raise (`Except.error`),
return insufficient data (`Except.ok none`, covering a falsy result, a missing
ticker key, or absent `prices`), or return price data. -/
def ChartService : Type :=
  String → Except String (Option PriceData)

/-- Embedding of `display_stock_chart`: the first component records the
tickers the chart service was invoked with, the second the presentation
events.  The `try ... except` of the source is the `Except.error` branch:
a service failure becomes a user-visible error message and nothing more. -/
def display_stock_chart (ticker : String) (svc : ChartService) :
    List String × List UIEvent :=
  let header := UIEvent.writeMsg ("--- Generating Chart for " ++ ticker ++ " ---")
  match svc ticker with
  | Except.error e =>
      ([ticker],
       [header,
        UIEvent.errMsg ("⚠️ Error displaying stock chart for " ++ ticker ++ ": " ++ e)])
  | Except.ok none =>
      ([ticker],
       [header,
        UIEvent.warnMsg ("Could not retrieve sufficient stock price data for "
          ++ ticker ++ " to plot a chart.")])
  | Except.ok (some pd) =>
      if !(pd.hasTimestampCol && pd.hasCloseCol) then
        ([ticker],
         [header,
          UIEvent.warnMsg ("Price data for " ++ ticker ++ " is missing expected columns.")])
      else if pd.validRowCount ≠ 0 then
        ([ticker], [header, UIEvent.plotChart ticker])
      else
        ([ticker],
         [header,
          UIEvent.warnMsg ("No valid price data points found for " ++ ticker ++ " to plot.")])

/-- Embedding of the chart-triggering tail of `main`:
`if potential_ticker_for_chart: display_stock_chart(...)`.  A `None` (or, in
Python truthiness, empty) candidate performs no action at all. -/
def maybeTriggerChart (candidate : Option String) (svc : ChartService) :
    List String × List UIEvent :=
  match candidate with
  | none => ([], [])
  | some t => display_stock_chart t svc

/-- Observable outcome of one interaction of the assistant block of `main`:
the assistant message appended to the chat history, the chart-service
invocations, and the presentation events of the chart path (including the
error message shown when the agent run raises). -/
structure Interaction where
  assistantMessage : String
  serviceCalls : List String
  events : List UIEvent
deriving DecidableEq

/-- Embedding of the assistant block of `main` (lines 218-261): run the agent
team; on success extract a ticker from the response and maybe trigger the
chart; on failure show an error, record the apology as the assistant message,
and leave `potential_ticker_for_chart` at its initial `None`, so the chart
path is never reached. -/
def runInteraction (agentRun : String → Except String String) (svc : ChartService)
    (prompt : String) : Interaction :=
  match agentRun prompt with
  | Except.error e =>
      { assistantMessage := "Sorry, I encountered an error processing your request: " ++ e
        serviceCalls := []
        events := [UIEvent.errMsg ("⚠️ An error occurred: " ++ e)] }
  | Except.ok content =>
      let ticker := (find_ticker_in_response content.toList).map (fun l => String.mk l)
      let res := maybeTriggerChart ticker svc
      { assistantMessage := content
        serviceCalls := res.1
        events := res.2 }

/-! ### Helper lemmas -/

/-- The candidate loop is equivalent to: if the text has a context marker,
the first candidate outside the exclusion set; otherwise nothing. -/
theorem findTickerLoop_eq (text : List Char) (l : List (List Char)) :
    findTickerLoop text l =
      if hasContextMarker text then
        l.find? (fun c => decide (c ∉ common_non_tickers))
      else none := by
  induction l with
  | nil => simp [findTickerLoop]
  | cons t ts ih =>
    by_cases hmem : t ∈ common_non_tickers
    · rw [findTickerLoop, if_pos hmem, ih]
      by_cases hctx : hasContextMarker text = true
      · simp [hctx, List.find?_cons, hmem]
      · simp [hctx]
    · rw [findTickerLoop, if_neg hmem]
      by_cases hctx : hasContextMarker text = true
      · simp [hctx, List.find?_cons, hmem]
      · simp [hctx, ih]

/-- Characterization of `find_ticker_in_response` as a single expression. -/
theorem find_ticker_characterization (text : List Char) :
    find_ticker_in_response text =
      if hasContextMarker text then
        (potential_tickers text).find? (fun c => decide (c ∉ common_non_tickers))
      else none := by
  unfold find_ticker_in_response
  by_cases h : potential_tickers text = []
  · simp [h, findTickerLoop_eq]
  · simp [h, findTickerLoop_eq]

/-! ### Claim theorems -/

/-- C1: for every text that contains at least one qualifying candidate (a
maximal run of 1-5 uppercase letters bounded by word boundaries, not in the
exclusion set) and contains a context-marker substring,
`find_ticker_in_response` returns the first qualifying candidate in
left-to-right order of occurrence. -/
theorem ticker_extract_first_qualifying (text t : List Char)
    (hmark : hasContextMarker text = true)
    (hfirst : (potential_tickers text).find? (fun c => decide (c ∉ common_non_tickers))
      = some t) :
    find_ticker_in_response text = some t := by
  rw [find_ticker_characterization, if_pos hmark, hfirst]

/-- Witness for C1 at the concrete text "AAPL data Financial Data". -/
theorem ticker_extract_first_qualifying_witness :
    hasContextMarker (String.toList "AAPL data Financial Data") = true ∧
    (potential_tickers (String.toList "AAPL data Financial Data")).find?
      (fun c => decide (c ∉ common_non_tickers)) = some (String.toList "AAPL") ∧
    find_ticker_in_response (String.toList "AAPL data Financial Data")
      = some (String.toList "AAPL") :=
  ⟨by decide, by decide,
   ticker_extract_first_qualifying _ _ (by decide) (by decide)⟩

/-- C2: for every text that contains a qualifying candidate but none of the
context-marker substrings, `find_ticker_in_response` returns nothing: the
context-gated behaviour is the active one and the commented-out fallback never
fires. -/
theorem ticker_extract_no_marker (text t : List Char)
    (_hcand : (potential_tickers text).find? (fun c => decide (c ∉ common_non_tickers))
      = some t)
    (hmark : hasContextMarker text = false) :
    find_ticker_in_response text = none := by
  rw [find_ticker_characterization, hmark]
  simp

/-- Witness for C2 at the concrete text "MSFT is a great company". -/
theorem ticker_extract_no_marker_witness :
    (potential_tickers (String.toList "MSFT is a great company")).find?
      (fun c => decide (c ∉ common_non_tickers)) = some (String.toList "MSFT") ∧
    hasContextMarker (String.toList "MSFT is a great company") = false ∧
    find_ticker_in_response (String.toList "MSFT is a great company") = none :=
  ⟨by decide, by decide,
   ticker_extract_no_marker _ (String.toList "MSFT") (by decide) (by decide)⟩

/-- C3: for every text in which every extracted uppercase candidate lies in
the exclusion set, `find_ticker_in_response` returns nothing, whether or not a
context marker is present. -/
theorem ticker_extract_all_excluded (text : List Char)
    (hall : ∀ c ∈ potential_tickers text, c ∈ common_non_tickers) :
    find_ticker_in_response text = none := by
  rw [find_ticker_characterization]
  have hnone : (potential_tickers text).find?
      (fun c => decide (c ∉ common_non_tickers)) = none := by
    apply List.find?_eq_none.mpr
    intro x hx
    simp [hall x hx]
  by_cases hctx : hasContextMarker text = true
  · rw [if_pos hctx, hnone]
  · rw [if_neg hctx]

/-- Witness for C3 at the concrete text "The CEO of ETF Corp spoke today". -/
theorem ticker_extract_all_excluded_witness :
    (∀ c ∈ potential_tickers (String.toList "The CEO of ETF Corp spoke today"),
      c ∈ common_non_tickers) ∧
    find_ticker_in_response (String.toList "The CEO of ETF Corp spoke today") = none :=
  ⟨by decide, ticker_extract_all_excluded _ (by decide)⟩

/-- C4: for every text with no maximal word run of 1-5 uppercase letters (the
candidate list is empty), `find_ticker_in_response` returns nothing. -/
theorem ticker_extract_no_candidates (text : List Char)
    (h : potential_tickers text = []) :
    find_ticker_in_response text = none := by
  unfold find_ticker_in_response
  simp [h]

/-- Witness for C4 at the empty text. -/
theorem ticker_extract_no_candidates_witness :
    potential_tickers (String.toList "") = [] ∧
    find_ticker_in_response (String.toList "") = none :=
  ⟨by decide, ticker_extract_no_candidates _ (by decide)⟩

/-- C5: on the concrete input "AAPL price: $150\n---|---|\n",
`find_ticker_in_response` returns "AAPL". -/
theorem ticker_extract_scenario_aapl :
    find_ticker_in_response (String.toList "AAPL price: $150\n---|---|\n")
      = some (String.toList "AAPL") := by
  decide

/-- C6: whenever the chart service raises for a present candidate, the failure
is caught inside `display_stock_chart` and surfaces only as a user-visible
error message; `maybeTriggerChart` still returns an ordinary value, so nothing
propagates to abort the surrounding interaction. -/
theorem chart_failure_caught (ticker : String) (svc : ChartService) (e : String)
    (h : svc ticker = Except.error e) :
    maybeTriggerChart (some ticker) svc =
      ([ticker],
       [UIEvent.writeMsg ("--- Generating Chart for " ++ ticker ++ " ---"),
        UIEvent.errMsg ("⚠️ Error displaying stock chart for " ++ ticker ++ ": " ++ e)]) := by
  simp [maybeTriggerChart, display_stock_chart, h]

/-- Witness for C6: a chart service that always raises, invoked for "NVDA". -/
theorem chart_failure_caught_witness :
    (fun _ : String => (Except.error "boom" : Except String (Option PriceData))) "NVDA"
      = Except.error "boom" ∧
    maybeTriggerChart (some "NVDA")
        (fun _ => (Except.error "boom" : Except String (Option PriceData))) =
      (["NVDA"],
       [UIEvent.writeMsg "--- Generating Chart for NVDA ---",
        UIEvent.errMsg "⚠️ Error displaying stock chart for NVDA: boom"]) :=
  ⟨rfl, chart_failure_caught "NVDA" (fun _ => Except.error "boom") "boom" rfl⟩

/-- C7: when the extracted candidate is empty, `maybeTriggerChart` performs no
action at all: no chart-service invocation and no presentation event. -/
theorem chart_no_candidate (svc : ChartService) :
    maybeTriggerChart none svc = ([], []) :=
  rfl

/-- C8: `find_ticker_in_response` is a total function: on every input it
yields either nothing (malformed or empty text included) or a ticker that
really is one of the pattern-extracted candidates — well-formed (1-5 uppercase
letters) and outside the exclusion set; the candidate-extraction step always
yields a (possibly empty) list. -/
theorem ticker_extract_total_sound (text : List Char) :
    find_ticker_in_response text = none ∨
      ∃ t, find_ticker_in_response text = some t ∧ t ∈ potential_tickers text ∧
        isTickerToken t = true ∧ t ∉ common_non_tickers := by
  rw [find_ticker_characterization]
  by_cases hctx : hasContextMarker text = true
  · rw [if_pos hctx]
    cases hfind : (potential_tickers text).find?
        (fun c => decide (c ∉ common_non_tickers)) with
    | none => exact Or.inl rfl
    | some t =>
      refine Or.inr ⟨t, rfl, List.mem_of_find?_eq_some hfind, ?_, ?_⟩
      · have hmem := List.mem_of_find?_eq_some hfind
        have : t ∈ (wordRuns text).filter isTickerToken := hmem
        exact List.of_mem_filter this
      · have := List.find?_some hfind
        simpa using this
  · rw [if_neg hctx]
    exact Or.inl rfl

/-- C9: `find_ticker_in_response` is extensionally equal to the simpler
function that checks the context marker once on the whole text and, when
present, returns the first extracted candidate outside the exclusion set. -/
theorem ticker_extract_equiv_simple (text : List Char) :
    find_ticker_in_response text = extractSimple text := by
  rw [find_ticker_characterization, extractSimple]

/-- C10: when the agent-team run raises, the interaction records the apology
string as the assistant message, shows an error, and never invokes the chart
service: the candidate stays at its initial `None`, so the chart path is
skipped entirely. -/
theorem interaction_agent_error_no_chart (agentRun : String → Except String String)
    (svc : ChartService) (prompt e : String)
    (h : agentRun prompt = Except.error e) :
    runInteraction agentRun svc prompt =
      { assistantMessage := "Sorry, I encountered an error processing your request: " ++ e
        serviceCalls := []
        events := [UIEvent.errMsg ("⚠️ An error occurred: " ++ e)] } := by
  simp [runInteraction, h]

/-- Witness for C10: an agent run that always raises, with an arbitrary
chart service. -/
theorem interaction_agent_error_no_chart_witness :
    (fun _ : String => (Except.error "boom" : Except String String)) "hi"
      = Except.error "boom" ∧
    runInteraction (fun _ => Except.error "boom")
        (fun _ => Except.ok none) "hi" =
      { assistantMessage := "Sorry, I encountered an error processing your request: boom"
        serviceCalls := []
        events := [UIEvent.errMsg "⚠️ An error occurred: boom"] } :=
  ⟨rfl,
   interaction_agent_error_no_chart (fun _ => Except.error "boom")
     (fun _ => Except.ok none) "hi" "boom" rfl⟩
